import Mathlib

/- Shallow embedding of the adaptive LLM invocation layer of the suna
   repository: backend/services/embedding_task_classifier.py,
   backend/services/llm.py and backend/services/model_selection_logger.py.

   Modelling conventions:
   * Python strings are `List Char`; string literals are written as Lean
     string literals converted with `.data`.
   * Python floats are modelled by `Flt`: exact rationals extended with the
     IEEE special values infinity and NaN (no rounding, no negative zero).
     NaN propagates through arithmetic and makes every `<` comparison false,
     exactly as in numpy float64 arithmetic.
   * `np.linalg.norm` needs a square root; it is modelled by an explicit
     square-root oracle parameter `sqrtF : ℚ → ℚ`.  Only its value at 0
     (where the true square root is exactly representable) matters for the
     theorems below, because a zero vector makes every similarity NaN before
     any other numeric value is inspected.
   * Python dict messages {role, content} are the structure `Msg`; a content
     value is either a plain string or a list of blocks, and `none` models an
     absent content key.  The presence of a "cache_control" key in a block is
     modelled by a Bool field.
-/

/-! ## Text utilities (Python str operations) -/

/-- Python s.lower(). -/
def lowerChars (s : List Char) : List Char := s.map Char.toLower

/-- Python substring containment: needle in hay. -/
def containsSub (hay needle : List Char) : Bool :=
  match hay with
  | [] => needle == []
  | _ :: t => needle.isPrefixOf hay || containsSub t needle

/-- Python any(term in hay for term in terms). -/
def anyTermIn (terms : List (List Char)) (hay : List Char) : Bool :=
  terms.any (fun t => containsSub hay t)

/-- Python len(s.split()): split on whitespace runs, dropping empty pieces. -/
def pyWordCount (s : List Char) : Nat :=
  ((s.splitOnP (fun c => c.isWhitespace)).filter (fun w => w ≠ [])).length

/-- Python s.endswith(t). -/
def pyEndsWith (s t : List Char) : Bool := t.isSuffixOf s

/-- Python s.startswith(t). -/
def pyStartsWith (s t : List Char) : Bool := t.isPrefixOf s

/-- Python model_name.split('/', 1)[1]: everything after the first slash. -/
def afterFirstSlash (m : List Char) : List Char :=
  (m.dropWhile (fun c => c ≠ '/')).drop 1

/-! ## Flt: IEEE-style float values (exact rationals + inf + NaN) -/

/-- A numpy float64 value: an exact rational, a signed infinity (pos = true
for positive infinity), or NaN.  Rounding and negative zero are not
modelled. -/
inductive Flt where
  | val (q : ℚ)
  | inf (pos : Bool)
  | nan
deriving DecidableEq

namespace Flt

/-- IEEE addition. -/
def fadd : Flt → Flt → Flt
  | nan, _ => nan
  | _, nan => nan
  | val a, val b => val (a + b)
  | inf s, val _ => inf s
  | val _, inf s => inf s
  | inf s, inf t => if s = t then inf s else nan

/-- IEEE negation. -/
def fneg : Flt → Flt
  | val q => val (-q)
  | inf s => inf (!s)
  | nan => nan

/-- IEEE subtraction. -/
def fsub (a b : Flt) : Flt := fadd a (fneg b)

/-- IEEE multiplication. -/
def fmul : Flt → Flt → Flt
  | nan, _ => nan
  | _, nan => nan
  | val a, val b => val (a * b)
  | inf s, val q => if q = 0 then nan else inf (s = (0 < q))
  | val q, inf s => if q = 0 then nan else inf (s = (0 < q))
  | inf s, inf t => inf (s = t)

/-- IEEE division; 0/0 is NaN, x/0 with x nonzero is a signed infinity. -/
def fdiv : Flt → Flt → Flt
  | nan, _ => nan
  | _, nan => nan
  | val a, val b =>
    if b = 0 then (if a = 0 then nan else inf (0 < a)) else val (a / b)
  | val _, inf _ => val 0
  | inf s, val b => inf (s = (0 ≤ b))
  | inf _, inf _ => nan

/-- IEEE less-than: every comparison with NaN is false. -/
def flt_lt : Flt → Flt → Bool
  | nan, _ => false
  | _, nan => false
  | val a, val b => a < b
  | inf s, val _ => !s
  | val _, inf s => s
  | inf s, inf t => !s && t

end Flt

/-! ## embedding_task_classifier.py -/

/-- np.dot on equal-length vectors. -/
def dotQ (a b : List ℚ) : ℚ := (List.zipWith (· * ·) a b).sum

/-- The square of np.linalg.norm. -/
def normSq (a : List ℚ) : ℚ := dotQ a a

/-- cosine_similarity (lines 97-110): np.dot(a, b) divided by the product of
the norms, under float semantics; the square root inside np.linalg.norm is
supplied by the oracle sqrtF.  For a zero vector both the dot product and the
norm product are exactly zero, so the division is the IEEE 0/0 = NaN. -/
def cosine_similarity (sqrtF : ℚ → ℚ) (a b : List ℚ) : Flt :=
  Flt.fdiv (Flt.val (dotQ a b))
    (Flt.fmul (Flt.val (sqrtF (normSq a))) (Flt.val (sqrtF (normSq b))))

/-- TASK_MODELS.get(task_type, TASK_MODELS["general"]) (lines 14-19). -/
def TASK_MODELS_get (t : List Char) : List Char :=
  if t = "coding".data then "qwen2.5-coder:32b-instruct-q8_0".data
  else if t = "reasoning".data then "mixtral:8x22b-instruct-v0.1-q4_K_M".data
  else if t = "creative".data then "qwen3:8b".data
  else "qwen3:32b".data

/-- confidence_thresholds (lines 229-234); the lookup key is always one of
the four task types, which are the only keys of TASK_EMBEDDINGS. -/
def confidence_thresholds (t : List Char) : ℚ :=
  if t = "coding".data then 65/100
  else if t = "reasoning".data then 60/100
  else if t = "creative".data then 65/100
  else 50/100

/-- The per-category prototype vectors (module state TASK_EMBEDDINGS, built
once from TASK_EXAMPLES in insertion order coding, reasoning, creative,
general). -/
structure TaskEmbeddings where
  coding : List ℚ
  reasoning : List ℚ
  creative : List ℚ
  general : List ℚ

/-- One insertion step of sorted(items, key = similarity, reverse = True):
an element moves past a later element only when strictly smaller, which
matches the stability of the Python sort and its behaviour on
all-incomparable (NaN) keys, where every comparison is false and the order
is unchanged. -/
def insertDesc (x : List Char × Flt) : List (List Char × Flt) → List (List Char × Flt)
  | [] => [x]
  | y :: ys => if Flt.flt_lt x.2 y.2 then y :: insertDesc x ys else x :: y :: ys

/-- sorted(similarities.items(), key = ..., reverse = True). -/
def sortDesc : List (List Char × Flt) → List (List Char × Flt)
  | [] => []
  | x :: xs => insertDesc x (sortDesc xs)

/-- classify_task_with_embeddings (lines 198-259), taking the prompt
embedding returned by get_embedding as input (get_embedding returns the
all-zero 100-vector on total failure, line 176). -/
def classify_task_with_embeddings (sqrtF : ℚ → ℚ) (te : TaskEmbeddings)
    (prompt_embedding : List ℚ) : List Char × Flt :=
  let sims : List (List Char × Flt) :=
    [("coding".data, cosine_similarity sqrtF prompt_embedding te.coding),
     ("reasoning".data, cosine_similarity sqrtF prompt_embedding te.reasoning),
     ("creative".data, cosine_similarity sqrtF prompt_embedding te.creative),
     ("general".data, cosine_similarity sqrtF prompt_embedding te.general)]
  match sortDesc sims with
  | [] => ("general".data, Flt.nan)
  | (best0, max_similarity) :: rest =>
    let confidence0 := Flt.fdiv (Flt.fadd max_similarity (Flt.val 1)) (Flt.val 2)
    let step1 : List Char × Flt :=
      match rest with
      | [] => (best0, confidence0)
      | (second_best, second_similarity) :: _ =>
        if Flt.flt_lt confidence0 (Flt.val (confidence_thresholds best0)) then
          let second_confidence :=
            Flt.fdiv (Flt.fadd second_similarity (Flt.val 1)) (Flt.val 2)
          let gap := Flt.fsub confidence0 second_confidence
          if Flt.flt_lt gap (Flt.val (1/10)) && (second_best == "general".data) then
            ("general".data, second_confidence)
          else (best0, confidence0)
        else (best0, confidence0)
    if Flt.flt_lt step1.2 (Flt.val (55/100)) then ("general".data, step1.2)
    else (step1.1, step1.2)

/-- The zero embedding vector returned by get_embedding on total failure. -/
def zeroVec (n : Nat) : List ℚ := List.replicate n 0

/-- Concrete nonzero prototype vectors for evaluating the classifier. -/
def protosDemo : TaskEmbeddings :=
  ⟨List.replicate 100 1, List.replicate 100 2,
   List.replicate 100 3, List.replicate 100 4⟩

/-- The coding keyword list of get_model_for_task (lines 290-292). -/
def coding_keywords : List (List Char) :=
  ["code".data, "function".data, "programming".data, "debug".data,
   "algorithm".data, "class".data, "method".data, "variable".data,
   "compile".data, "syntax".data, "api".data]

/-- The reasoning term list of get_model_for_task (lines 305-307). -/
def reasoning_terms : List (List Char) :=
  ["analyze".data, "evaluate".data, "compare".data, "contrast".data,
   "implications".data, "reasoning".data, "logic".data, "argument".data,
   "debate".data, "philosophy".data]

/-- The override section of get_model_for_task (lines 279-323) after
classify_task_with_embeddings has produced task_type: the if/elif chain that
picks the model and the optional override reason (logging side effects
omitted). -/
def get_model_for_task_from (prompt task_type : List Char) :
    List Char × Option (List Char) :=
  let model := TASK_MODELS_get task_type
  let prompt_lower := lowerChars prompt
  if task_type ≠ "coding".data ∧ anyTermIn coding_keywords prompt_lower then
    (TASK_MODELS_get "coding".data, some "coding_keywords_detected".data)
  else if 100 < pyWordCount prompt ∧ task_type ≠ "reasoning".data then
    (TASK_MODELS_get "reasoning".data, some "long_complex_prompt".data)
  else if task_type ≠ "reasoning".data ∧ anyTermIn reasoning_terms prompt_lower then
    (TASK_MODELS_get "reasoning".data, some "reasoning_terms_detected".data)
  else (model, none)

/-! ## llm.py: constants, message data model -/

/-- MAX_RETRIES (llm.py line 28). -/
def MAX_RETRIES : Nat := 3

/-- RATE_LIMIT_DELAY in seconds (llm.py line 29). -/
def RATE_LIMIT_DELAY : Nat := 30

/-- RETRY_DELAY in seconds (llm.py line 30). -/
def RETRY_DELAY : Nat := 5

/-- One element of a structured content list: a dict with a "type" entry, a
"text" entry, and possibly a "cache_control" entry (presence modelled by the
Bool; the only value ever written is the ephemeral marker). -/
structure MBlock where
  btype : List Char
  text : List Char
  cache_control : Bool
deriving DecidableEq

/-- A message content value: either a plain string or a list of blocks. -/
inductive MContent where
  | str (s : List Char)
  | blocks (items : List MBlock)
deriving DecidableEq

/-- A chat message dict; content = none models an absent content key. -/
structure Msg where
  role : List Char
  content : Option MContent
deriving DecidableEq

/-- A Python runtime error escaping a function (here always the
AttributeError raised by calling a str method on a list content value). -/
inductive PyError where
  | attributeError
deriving DecidableEq

/-- The task types recognized by enhance_prompt_for_task (llm.py line 95). -/
def KNOWN_TASK_TYPES : List (List Char) :=
  ["coding".data, "reasoning".data, "creative".data, "chat".data]

/-- task_instructions (llm.py lines 102-123). -/
def task_instructions (t : List Char) : List Char :=
  if t = "coding".data then
    ("You are an expert programmer. Provide clean, efficient, and well-documented code. " ++
     "Focus on best practices, security, and performance. Include error handling " ++
     "and explain your implementation choices. Be precise and thorough.").data
  else if t = "reasoning".data then
    ("You are a logical reasoning expert. Break down complex problems step by step. " ++
     "Consider multiple perspectives, identify assumptions, and evaluate evidence critically. " ++
     "Be thorough in your analysis and explain your reasoning clearly.").data
  else if t = "creative".data then
    ("You are a creative assistant. Think outside the box and generate novel ideas. " ++
     "Use vivid language, metaphors, and storytelling techniques. " ++
     "Don\x27t be constrained by conventional thinking.").data
  else
    ("You are a helpful, friendly assistant. Provide concise, accurate information. " ++
     "Be conversational but efficient. Anticipate follow-up questions and provide " ++
     "relevant context when appropriate.").data

/-- The separator step of enhance_prompt_for_task (lines 134-138): add a
period and a space, or just a space when the content already ends in a
period. -/
def withSentenceSep (s : List Char) : List Char :=
  if pyEndsWith s ".".data then s ++ " ".data else s ++ ". ".data

/-- enhance_prompt_for_task (llm.py lines 83-148) under value semantics.
Returns the AttributeError that Python raises when the first system message
carries a structured (list) content, since str.endswith is then called on a
list.  The in-place aliasing behaviour of the same function is modelled
separately by enhance_prompt_for_task_heap. -/
def enhance_prompt_for_task (messages : List Msg) (task_type : List Char) :
    Except PyError (List Msg) :=
  if messages = [] ∨ task_type ∉ KNOWN_TASK_TYPES then .ok messages
  else
    match messages.findIdx? (fun m => m.role == "system".data) with
    | some i =>
      match messages[i]? with
      | none => .ok messages
      | some m =>
        match m.content with
        | some (.blocks _) => .error .attributeError
        | some (.str s) =>
          .ok (messages.set i
            { m with content := some (.str (withSentenceSep s ++ task_instructions task_type)) })
        | none =>
          .ok (messages.set i
            { m with content := some (.str (withSentenceSep [] ++ task_instructions task_type)) })
    | none =>
      .ok ({ role := "system".data,
             content := some (.str (task_instructions task_type)) } :: messages)

/-- optimize_temperature (llm.py lines 150-173). -/
def optimize_temperature (task_type : List Char) (user_temperature : ℚ) : ℚ :=
  if user_temperature ≠ 0 then user_temperature
  else if task_type = "coding".data then 1/10
  else if task_type = "reasoning".data then 2/10
  else if task_type = "creative".data then 8/10
  else if task_type = "chat".data then 5/10
  else 0

/-- The available_models lookup of select_best_model_for_task
(llm.py lines 190-195, with .get default at line 218). -/
def available_models_get (t default : List Char) : List Char :=
  if t = "coding".data then "qwen2.5-coder:32b-instruct-q8_0".data
  else if t = "reasoning".data then "mixtral:8x22b-instruct-v0.1-q4_K_M".data
  else if t = "creative".data then "llama3.1:8b".data
  else if t = "chat".data then "qwen2.5:32b-instruct-q4_K_M".data
  else default

/-- The keyword heuristics of select_best_model_for_task (lines 207-215),
applied to the lower-cased last user message. -/
def auto_task_heuristic (last_user_msg : List Char) : List Char :=
  if anyTermIn ["code".data, "function".data, "programming".data, "script".data,
      "algorithm".data, "debug".data] last_user_msg then "coding".data
  else if anyTermIn ["explain".data, "why".data, "how".data, "analyze".data,
      "compare".data, "evaluate".data] last_user_msg then "reasoning".data
  else if anyTermIn ["story".data, "creative".data, "imagine".data, "design".data,
      "generate".data] last_user_msg then "creative".data
  else "chat".data

/-- The process configuration object (utils.config fields read by llm.py);
none models a missing or empty (falsy) value. -/
structure LLMConfig where
  OPENAI_API_KEY : Option (List Char)
  ANTHROPIC_API_KEY : Option (List Char)
  GROQ_API_KEY : Option (List Char)
  OPENROUTER_API_KEY : Option (List Char)
  OLLAMA_PROVIDER : Option (List Char)
  OLLAMA_API_BASE : Option (List Char)
  MODEL_TO_USE : List Char
  OR_SITE_URL : Option (List Char)
  OR_APP_NAME : Option (List Char)
deriving DecidableEq

/-- select_best_model_for_task (llm.py lines 175-218).  When task_type is
"auto" the last user message content is lower-cased, which raises
AttributeError when that content is a structured list; when no user message
exists the heuristics run on the empty string; when the message list is
empty the lookup key stays "auto" and falls back to the configured
default. -/
def select_best_model_for_task (cfg : LLMConfig) (task_type : List Char)
    (messages : List Msg) : Except PyError (List Char) :=
  if task_type = "auto".data then
    if 0 < messages.length then
      match messages.reverse.find? (fun m => m.role == "user".data) with
      | some m =>
        match m.content with
        | some (.blocks _) => .error .attributeError
        | some (.str s) =>
          .ok (available_models_get (auto_task_heuristic (lowerChars s)) cfg.MODEL_TO_USE)
        | none => .ok (available_models_get (auto_task_heuristic []) cfg.MODEL_TO_USE)
      | none => .ok (available_models_get (auto_task_heuristic []) cfg.MODEL_TO_USE)
    else .ok (available_models_get "auto".data cfg.MODEL_TO_USE)
  else .ok (available_models_get task_type cfg.MODEL_TO_USE)

/-- The provider parameter dict built by prepare_params; optional fields
model absent dict keys. -/
structure LLMParams where
  model : List Char
  messages : List Msg
  temperature : ℚ
  response_format : Option (List Char)
  top_p : Option ℚ
  stream : Bool
  api_key : Option (List Char)
  api_base : Option (List Char)
  model_id : Option (List Char)
  max_tokens : Option Nat
  max_completion_tokens : Option Nat
  tools : List (List Char)
  tool_choice : Option (List Char)
  provider : Option (List Char)
  extra_headers : List (List Char × List Char)
  reasoning_effort : Option (List Char)
deriving DecidableEq

/-- The provider-precedence chain of prepare_params (llm.py lines 259-269). -/
def defaultProvider (cfg : LLMConfig) : Option (List Char) :=
  if cfg.OPENAI_API_KEY.isSome then some "openai".data
  else if cfg.ANTHROPIC_API_KEY.isSome then some "anthropic".data
  else if cfg.GROQ_API_KEY.isSome then some "groq".data
  else if cfg.OPENROUTER_API_KEY.isSome then some "openrouter".data
  else none

/-- Python dict item assignment on a header dict: replace the value when the
key exists, otherwise append the pair. -/
def setHeader (hs : List (List Char × List Char)) (k v : List Char) :
    List (List Char × List Char) :=
  if hs.any (fun p => p.1 == k) then hs.map (fun p => if p.1 == k then (k, v) else p)
  else hs ++ [(k, v)]

/-- The Ollama model-name sniffing of prepare_params (llm.py line 314). -/
def is_ollama_name (m : List Char) : Bool :=
  anyTermIn ["qwen".data, "mixtral".data, "llama".data] (lowerChars m)

/-- The Ollama provider configuration test used at llm.py lines 319 and 537:
OLLAMA_PROVIDER is truthy and lower-cases to "ollama". -/
def ollama_configured (cfg : LLMConfig) : Bool :=
  match cfg.OLLAMA_PROVIDER with
  | some p => lowerChars p == "ollama".data
  | none => false

/-- The Claude/Anthropic name test of prepare_params
(llm.py lines 343 and 378). -/
def is_anthropic_name (m : List Char) : Bool :=
  containsSub (lowerChars m) "claude".data || containsSub (lowerChars m) "anthropic".data

/-- The inference-profile ARN auto-set for Claude 3.7 Sonnet
(llm.py line 372). -/
def CLAUDE37_ARN : List Char :=
  "arn:aws:bedrock:us-west-2:935064898258:inference-profile/us.anthropic.claude-3-7-sonnet-20250219-v1:0".data

/-- The first loop of the Anthropic cache section (llm.py lines 393-399):
mark the first text block that does not yet carry a cache_control entry,
then stop; text blocks already carrying one are skipped, non-text blocks are
ignored. -/
def mark_first_text_item : List MBlock → List MBlock
  | [] => []
  | b :: bs =>
    if b.btype == "text".data && !b.cache_control then
      { b with cache_control := true } :: bs
    else b :: mark_first_text_item bs

/-- The list branch of apply_cache_control (llm.py lines 433-437): mark
every text block that does not yet carry a cache_control entry. -/
def mark_all_text_items (bs : List MBlock) : List MBlock :=
  bs.map (fun b =>
    if b.btype == "text".data && !b.cache_control then { b with cache_control := true }
    else b)

/-- The system-prompt branch of the cache section (llm.py lines 386-399):
wrap string content into a single marked text block, or mark the first
unmarked text block of an existing list. -/
def wrap_system_cache (m : Msg) : Msg :=
  match m.content with
  | some (.str s) => { m with content := some (.blocks [⟨"text".data, s, true⟩]) }
  | some (.blocks bs) => { m with content := some (.blocks (mark_first_text_item bs)) }
  | none => m

/-- apply_cache_control applied to one message (llm.py lines 422-437). -/
def apply_cache_control_msg (m : Msg) : Msg :=
  match m.content with
  | some (.str s) => { m with content := some (.blocks [⟨"text".data, s, true⟩]) }
  | some (.blocks bs) => { m with content := some (.blocks (mark_all_text_items bs)) }
  | none => m

/-- In-place update of the message at one index (Python messages[i] = ...). -/
def modifyAt (f : Msg → Msg) : Nat → List Msg → List Msg
  | _, [] => []
  | 0, m :: ms => f m :: ms
  | n + 1, m :: ms => m :: modifyAt f n ms

/-- The indices holding a given role, in ascending order; the reverse scan of
llm.py lines 406-419 picks the last one, the second-to-last user one and the
last assistant one. -/
def role_indices (messages : List Msg) (r : List Char) : List Nat :=
  (List.range messages.length).filter
    (fun i => ((messages[i]?).map (fun m => m.role == r)).getD false)

/-- apply_cache_control at an optional index (index -1 means absent). -/
def applyCCAt (ms : List Msg) : Option Nat → List Msg
  | none => ms
  | some i => modifyAt apply_cache_control_msg i ms

/-- The whole Anthropic prompt-caching section of prepare_params
(llm.py lines 375-442) as a transformation of the message list: process a
leading system message, then mark the last user, second-to-last user and
last assistant messages. -/
def apply_anthropic_cache (messages : List Msg) : List Msg :=
  let ms1 :=
    match messages with
    | [] => []
    | m :: rest => if m.role == "system".data then wrap_system_cache m :: rest else m :: rest
  let user_idxs := role_indices ms1 "user".data
  let asst_idxs := role_indices ms1 "assistant".data
  applyCCAt (applyCCAt (applyCCAt ms1 user_idxs.getLast?) user_idxs.dropLast.getLast?)
    asst_idxs.getLast?

/-- Token-limit handling of prepare_params (llm.py lines 291-299): no limit
for Claude 3.7 on Bedrock, max_completion_tokens for o1 models, max_tokens
otherwise. -/
def step_token_limits (model_name2 : List Char) (max_tokens : Option Nat)
    (p : LLMParams) : LLMParams :=
  match max_tokens with
  | none => p
  | some mt =>
    if pyStartsWith model_name2 "bedrock/".data ∧ containsSub model_name2 "claude-3-7".data then
      p
    else if containsSub model_name2 "o1".data then { p with max_completion_tokens := some mt }
    else { p with max_tokens := some mt }

/-- Tool attachment (llm.py lines 302-307); an empty tool list is falsy. -/
def step_tools (tools : List (List Char)) (tool_choice : List Char)
    (p : LLMParams) : LLMParams :=
  if tools ≠ [] then { p with tools := tools, tool_choice := some tool_choice }
  else p

/-- Ollama normalization or, failing that, Claude beta headers
(llm.py lines 309-348).  The Ollama branch strips any provider segment from
the local model_name variable and forces the ollama/ prefix, the configured
api_base and an explicit provider entry; the elif branch attaches the
anthropic-beta header.  Returns the updated params together with the updated
local model_name, which the later startswith checks read. -/
def step_ollama_or_claude (cfg : LLMConfig) (model_name2 : List Char)
    (p : LLMParams) : LLMParams × List Char :=
  if is_ollama_name model_name2 || ollama_configured cfg then
    let stripped := if model_name2.contains '/' then afterFirstSlash model_name2 else model_name2
    ({ p with
        model := "ollama/".data ++ stripped,
        api_base := match cfg.OLLAMA_API_BASE with | some b => some b | none => p.api_base,
        provider := some "ollama".data }, stripped)
  else if is_anthropic_name model_name2 then
    ({ p with extra_headers := [("anthropic-beta".data, "output-128k-2025-02-19".data)] },
      model_name2)
  else (p, model_name2)

/-- OpenRouter referer and app-name headers (llm.py lines 351-365). -/
def step_openrouter (cfg : LLMConfig) (model_name3 : List Char)
    (p : LLMParams) : LLMParams :=
  if pyStartsWith model_name3 "openrouter/".data then
    if cfg.OR_SITE_URL.isSome ∨ cfg.OR_APP_NAME.isSome then
      let hs1 :=
        match cfg.OR_SITE_URL with
        | some u => setHeader p.extra_headers "HTTP-Referer".data u
        | none => p.extra_headers
      let hs2 :=
        match cfg.OR_APP_NAME with
        | some a => setHeader hs1 "X-Title".data a
        | none => hs1
      { p with extra_headers := hs2 }
    else p
  else p

/-- Bedrock inference-profile ARN auto-set (llm.py lines 367-373). -/
def step_bedrock (model_name3 : List Char) (model_id : Option (List Char))
    (p : LLMParams) : LLMParams :=
  if pyStartsWith model_name3 "bedrock/".data then
    if model_id = none ∧ containsSub model_name3 "anthropic.claude-3-7-sonnet".data then
      { p with model_id := some CLAUDE37_ARN }
    else p
  else p

/-- Anthropic prompt caching and the thinking override
(llm.py lines 375-452): the effective model name is read once from
params["model"]; when it names an Anthropic model the messages are
cache-marked, and when thinking is additionally enabled the reasoning
effort is set (defaulting a falsy value to "low") and the sampling
temperature is forced to 1.0. -/
def step_cache_and_thinking (enable_thinking : Option Bool)
    (reasoning_effort : Option (List Char)) (p : LLMParams) : LLMParams :=
  let is_anthro := is_anthropic_name p.model
  let p6 := if is_anthro then { p with messages := apply_anthropic_cache p.messages } else p
  let use_thinking := enable_thinking.getD false
  if is_anthro ∧ use_thinking then
    { p6 with
      reasoning_effort := some (match reasoning_effort with
        | some r => if r = [] then "low".data else r
        | none => "low".data),
      temperature := 1 }
  else p6

/-- The infallible remainder of prepare_params (llm.py lines 245-454), run
after the two fallible steps have produced the possibly switched model name
and the possibly enhanced messages: temperature optimization, provider
prefixing, the base parameter dict, then the provider-specific steps in
source order.  (In the source the temperature optimization sits between the
two fallible steps; as a pure computation its placement is immaterial.) -/
def prepare_params_core (cfg : LLMConfig) (messages1 : List Msg)
    (model_name1 : List Char) (temperature : ℚ) (max_tokens : Option Nat)
    (response_format : Option (List Char)) (tools : List (List Char))
    (tool_choice : List Char) (api_key api_base : Option (List Char))
    (stream : Bool) (top_p : Option ℚ) (model_id : Option (List Char))
    (enable_thinking : Option Bool) (reasoning_effort : Option (List Char))
    (task_type : List Char) : LLMParams :=
  let temperature1 := optimize_temperature task_type temperature
  let model_name2 :=
    if ¬ (model_name1.contains '/') then
      match defaultProvider cfg with
      | some p => p ++ "/".data ++ model_name1
      | none => model_name1
    else model_name1
  let params0 : LLMParams :=
    { model := model_name2, messages := messages1, temperature := temperature1,
      response_format := response_format, top_p := top_p, stream := stream,
      api_key := api_key, api_base := api_base, model_id := model_id,
      max_tokens := none, max_completion_tokens := none,
      tools := [], tool_choice := none, provider := none,
      extra_headers := [], reasoning_effort := none }
  let step3 := step_ollama_or_claude cfg model_name2
    (step_tools tools tool_choice (step_token_limits model_name2 max_tokens params0))
  let params5 := step_bedrock step3.2 model_id (step_openrouter cfg step3.2 step3.1)
  step_cache_and_thinking enable_thinking reasoning_effort params5

/-- prepare_params (llm.py lines 220-454).  The argument order follows the
source; cfg is the module-level config object.  The two fallible steps are
the task-based model switch (which may raise inside
select_best_model_for_task) and the prompt enhancement (which may raise
inside enhance_prompt_for_task); everything else is pure and lives in
prepare_params_core. -/
def prepare_params (cfg : LLMConfig) (messages : List Msg) (model_name : List Char)
    (temperature : ℚ) (max_tokens : Option Nat) (response_format : Option (List Char))
    (tools : List (List Char)) (tool_choice : List Char)
    (api_key api_base : Option (List Char)) (stream : Bool) (top_p : Option ℚ)
    (model_id : Option (List Char)) (enable_thinking : Option Bool)
    (reasoning_effort : Option (List Char)) (task_type : List Char) :
    Except PyError LLMParams :=
  Except.bind
    (if task_type ≠ [] ∧ model_name = cfg.MODEL_TO_USE then
      select_best_model_for_task cfg task_type messages
    else pure model_name)
    (fun model_name1 =>
      Except.bind
        (if task_type ≠ "auto".data then enhance_prompt_for_task messages task_type
        else pure messages)
        (fun messages1 =>
          pure (prepare_params_core cfg messages1 model_name1 temperature max_tokens
            response_format tools tool_choice api_key api_base stream top_p model_id
            enable_thinking reasoning_effort task_type)))

/-! ## Aliasing model of enhance_prompt_for_task -/

/-- enhance_prompt_for_task under reference semantics: the heap stores the
message dicts, the caller passes a list of references into it, and
messages.copy() (llm.py line 99) copies only the reference list.  The append
branch (lines 132-139) assigns through a shared reference and therefore
updates the heap cell, while the insert branch (lines 141-145) allocates a
fresh cell and leaves the heap and the caller-visible cells intact.  Returns
the updated heap together with the reference list of the returned copy. -/
def enhance_prompt_for_task_heap (heap : List Msg) (refs : List Nat)
    (task_type : List Char) : Except PyError (List Msg × List Nat) :=
  if refs = [] ∨ task_type ∉ KNOWN_TASK_TYPES then .ok (heap, refs)
  else
    match refs.findIdx? (fun r => ((heap[r]?).map (fun m => m.role == "system".data)).getD false) with
    | some i =>
      match refs[i]? with
      | none => .ok (heap, refs)
      | some r =>
        match heap[r]? with
        | none => .ok (heap, refs)
        | some m =>
          match m.content with
          | some (.blocks _) => .error .attributeError
          | some (.str s) =>
            .ok (heap.set r
              { m with content := some (.str (withSentenceSep s ++ task_instructions task_type)) },
              refs)
          | none =>
            .ok (heap.set r
              { m with content := some (.str (withSentenceSep [] ++ task_instructions task_type)) },
              refs)
    | none =>
      .ok (heap ++ [{ role := "system".data,
                      content := some (.str (task_instructions task_type)) }],
           heap.length :: refs)

/-! ## The retry loop of make_llm_api_call (llm.py lines 519-554) -/

/-- One outcome of litellm.acompletion, classified by the except clause of
make_llm_api_call that names the raised type: RateLimitError, another
OpenAIError or json.JSONDecodeError (both retried with the short delay),
litellm BadRequestError, or any other exception. -/
inductive CallResult where
  | success (resp : List Char)
  | rateLimited (e : List Char)
  | transientError (e : List Char)
  | badRequest (e : List Char)
  | otherError (e : List Char)
deriving DecidableEq

/-- The structural-error marker tested at llm.py line 535. -/
def PROVIDER_NOT_PROVIDED : List Char := "LLM Provider NOT provided".data

/-- How make_llm_api_call terminates: a response, an LLMError, or the
LLMRetryError raised after the loop, carrying str(last_error) when one was
recorded. -/
inductive InvokeOutcome where
  | ok (resp : List Char)
  | llmError (msg : List Char)
  | retryExhausted (last_error : Option (List Char))
deriving DecidableEq

/-- Observable bookkeeping of one make_llm_api_call invocation: transport
calls made, seconds slept in handle_error, provider-prefix corrections
applied, and the final params["model"] value. -/
structure InvokeStats where
  attempts : Nat
  total_sleep : Nat
  provider_corrections : Nat
  final_model : List Char
deriving DecidableEq

/-- The for-attempt-in-range(MAX_RETRIES) loop of make_llm_api_call
(llm.py lines 520-554) with handle_error (lines 76-81) inlined: a rate-limit
error sleeps RATE_LIMIT_DELAY and a transient error RETRY_DELAY before the
next iteration; a BadRequestError whose text contains the provider-missing
marker prepends the ollama/ or openai/ prefix to params["model"] and
continues without sleeping and without recording last_error; any other
BadRequestError or unexpected exception raises LLMError at once.  Each
continue advances the loop counter, so fuel decreases on every path. -/
def invoke_loop (cfg : LLMConfig) (transport : Nat → List Char → CallResult) :
    Nat → Nat → List Char → Option (List Char) → Nat → Nat →
    InvokeOutcome × InvokeStats
  | attempt, 0, model, last_error, slept, corrections =>
    (.retryExhausted last_error, ⟨attempt, slept, corrections, model⟩)
  | attempt, fuel + 1, model, last_error, slept, corrections =>
    match transport attempt model with
    | .success r => (.ok r, ⟨attempt + 1, slept, corrections, model⟩)
    | .rateLimited e =>
      invoke_loop cfg transport (attempt + 1) fuel model (some e)
        (slept + RATE_LIMIT_DELAY) corrections
    | .transientError e =>
      invoke_loop cfg transport (attempt + 1) fuel model (some e)
        (slept + RETRY_DELAY) corrections
    | .badRequest e =>
      if containsSub e PROVIDER_NOT_PROVIDED then
        invoke_loop cfg transport (attempt + 1) fuel
          ((if ollama_configured cfg then "ollama/".data else "openai/".data) ++ model)
          last_error slept (corrections + 1)
      else (.llmError ("API call failed: ".data ++ e), ⟨attempt + 1, slept, corrections, model⟩)
    | .otherError e =>
      (.llmError ("API call failed: ".data ++ e), ⟨attempt + 1, slept, corrections, model⟩)

/-- The retry portion of make_llm_api_call, started on the prepared
params["model"] with no last error, no sleep, and MAX_RETRIES fuel. -/
def make_llm_api_call_retry (cfg : LLMConfig)
    (transport : Nat → List Char → CallResult) (model : List Char) :
    InvokeOutcome × InvokeStats :=
  invoke_loop cfg transport 0 MAX_RETRIES model none 0 0

/-! ## model_selection_logger.py -/

/-- The truncation shared by log_model_selection (line 79) and
log_model_selection_to_db (line 47): prompts longer than 50 characters keep
their first 50 characters followed by a three-character ellipsis. -/
def truncate_prompt (prompt : List Char) : List Char :=
  if 50 < prompt.length then prompt.take 50 ++ "...".data else prompt

/-- The structured record inserted into model_selection_logs
(model_selection_logger.py lines 54-61): it carries the truncated snippet
and the numeric prompt length, never the prompt itself. -/
structure ModelSelectionRecord where
  prompt_snippet : List Char
  prompt_length : Nat
  task_type : List Char
  confidence : Flt
  selected_model : List Char
  override_reason : Option (List Char)
deriving DecidableEq

/-- log_model_selection_to_db (lines 34-61) up to the database write: the
record handed to the insert call. -/
def log_model_selection_record (prompt task_type : List Char) (confidence : Flt)
    (selected_model : List Char) (override_reason : Option (List Char)) :
    ModelSelectionRecord :=
  { prompt_snippet := truncate_prompt prompt, prompt_length := prompt.length,
    task_type := task_type, confidence := confidence,
    selected_model := selected_model, override_reason := override_reason }

/-! ## Observation predicates and concrete inputs used by the theorems -/

instance {ε α : Type} [DecidableEq ε] [DecidableEq α] : DecidableEq (Except ε α) :=
  fun a b =>
    match a, b with
    | .ok x, .ok y =>
      if h : x = y then .isTrue (by rw [h]) else .isFalse (fun hc => h (Except.ok.inj hc))
    | .error x, .error y =>
      if h : x = y then .isTrue (by rw [h]) else .isFalse (fun hc => h (Except.error.inj hc))
    | .ok _, .error _ => .isFalse (fun hc => Except.noConfusion hc)
    | .error _, .ok _ => .isFalse (fun hc => Except.noConfusion hc)

/-- The block stored at position j of the structured content of a message
(none for string or absent content). -/
def msg_block (m : Msg) (j : Nat) : Option MBlock :=
  match m.content with
  | some (.blocks bs) => bs[j]?
  | _ => none

/-- The textual content of a message, abstracting over whether it is stored
as a plain string or as structured blocks. -/
def msg_texts (m : Msg) : List (List Char) :=
  match m.content with
  | some (.str s) => [s]
  | some (.blocks bs) => bs.map MBlock.text
  | none => []

/-- One message is a cache-safe refinement of another: same role, same
texts in the same order, and every block that already carries a cache hint
is left exactly as it was (in dict semantics this is precisely the
guarantee that no second cache_control entry is written to it). -/
def MsgPreserves (m m' : Msg) : Prop :=
  m'.role = m.role ∧ msg_texts m' = msg_texts m ∧
  ∀ j b, msg_block m j = some b → b.cache_control = true → msg_block m' j = some b

/-- A message list is transformed without disturbing order, roles or texts,
and without touching any block that already carries a cache hint. -/
def CachePreserves (ms ms' : List Msg) : Prop :=
  ms'.length = ms.length ∧
  ∀ (i : Nat) (m : Msg), ms[i]? = some m → ∃ m', ms'[i]? = some m' ∧ MsgPreserves m m'

/-- A single user message, as a caller would pass it. -/
def msgsUserHi : List Msg := [{ role := "user".data, content := some (.str "hi".data) }]

/-- An empty configuration: no provider keys, no Ollama, a default model
that differs from the model names used in the concrete calls below. -/
def cfgEmpty : LLMConfig :=
  { OPENAI_API_KEY := none, ANTHROPIC_API_KEY := none, GROQ_API_KEY := none,
    OPENROUTER_API_KEY := none, OLLAMA_PROVIDER := none, OLLAMA_API_BASE := none,
    MODEL_TO_USE := "gpt-test".data, OR_SITE_URL := none, OR_APP_NAME := none }

/-- A 150-word prompt containing no coding keyword and no reasoning term. -/
def demo_long_prompt : List Char := (List.replicate 150 "hello ".data).flatten

/-- A realistic provider-missing error text as produced by litellm. -/
def provider_missing_msg : List Char :=
  "litellm.BadRequestError: LLM Provider NOT provided. Pass in the LLM provider you are trying to call.".data

/-- A 51-character prompt. -/
def p51 : List Char := List.replicate 51 'a'

/-- The caller-owned message objects of the C8 scenario: a system message
followed by a user message, addresses 0 and 1. -/
def c8_heap : List Msg :=
  [{ role := "system".data, content := some (.str "You are a helpful assistant.".data) },
   { role := "user".data, content := some (.str "hi".data) }]

/-- An all-fields-empty parameter record, used only as a getD default. -/
def emptyParams : LLMParams :=
  { model := [], messages := [], temperature := 0, response_format := none,
    top_p := none, stream := false, api_key := none, api_base := none,
    model_id := none, max_tokens := none, max_completion_tokens := none,
    tools := [], tool_choice := none, provider := none, extra_headers := [],
    reasoning_effort := none }

/-- The prepared parameters of the C5 witness call: a non-Anthropic model
with caller temperature 0.3 and thinking enabled. -/
def c5w_params : LLMParams :=
  (prepare_params cfgEmpty msgsUserHi "gpt-4o".data (mkRat 3 10) none none [] "auto".data
    none none false none none (some true) (some "low".data) "chat".data).toOption.getD
    emptyParams

/-! ## Theorems -/

theorem except_bind_ok {ε α β : Type} (e : Except ε α) (f : α → Except ε β) (b : β) :
    Except.bind e f = .ok b ↔ ∃ a, e = .ok a ∧ f a = .ok b := by
  cases e <;> simp [Except.bind]

theorem dotQ_zeroVec (n : Nat) (v : List ℚ) : dotQ (zeroVec n) v = 0 := by
  induction n generalizing v with
  | zero => simp [dotQ, zeroVec]
  | succ k ih =>
    cases v with
    | nil => simp [dotQ, zeroVec]
    | cons x xs => simpa [dotQ, zeroVec, List.replicate_succ] using ih xs

theorem normSq_zeroVec (n : Nat) : normSq (zeroVec n) = 0 := dotQ_zeroVec n _

theorem cosine_zero_nan (sqrtF : ℚ → ℚ) (h : sqrtF 0 = 0) (n : Nat) (v : List ℚ) :
    cosine_similarity sqrtF (zeroVec n) v = Flt.nan := by
  simp [cosine_similarity, dotQ_zeroVec, normSq_zeroVec, h, Flt.fmul, Flt.fdiv]

theorem classify_zero_vector (sqrtF : ℚ → ℚ) (h : sqrtF 0 = 0)
    (te : TaskEmbeddings) (n : Nat) :
    classify_task_with_embeddings sqrtF te (zeroVec n) = ("coding".data, Flt.nan) := by
  simp only [classify_task_with_embeddings, cosine_zero_nan sqrtF h]
  decide

/-- C1: code-bug evidence.  For a prompt whose embedding is the all-zero
vector (the total-failure value of get_embedding), classify_task_with_embeddings
does NOT return "general": every cosine similarity is the IEEE 0/0 = NaN,
every comparison with NaN is false, so neither the ambiguity dampening nor
the absolute 0.55 confidence floor fires, and the function returns the first
dictionary entry "coding" with NaN confidence.  Stated here at a concrete
instance; classify_zero_vector proves the same for every prototype set,
every dimension and every square-root oracle that is exact at zero. -/
theorem c1_zero_vector_returns_coding :
    classify_task_with_embeddings (fun _ => 0) protosDemo (zeroVec 100) =
      ("coding".data, Flt.nan) ∧ "coding".data ≠ "general".data :=
  ⟨classify_zero_vector (fun _ => 0) rfl protosDemo 100, by decide⟩

/-- C3: confirmed.  With a transport that raises a rate-limit error on every
attempt, the retry loop of make_llm_api_call terminates with the
retry-exhaustion error after exactly MAX_RETRIES = 3 attempts, the error
carries the last underlying transport error, and the total backoff slept is
3 * RATE_LIMIT_DELAY = 90 seconds, which is at least
(MAX_RETRIES - 1) * RATE_LIMIT_DELAY. -/
theorem c3_rate_limit_retry_exhaustion (cfg : LLMConfig)
    (errF : Nat → List Char → List Char) (model : List Char) :
    make_llm_api_call_retry cfg (fun n m => .rateLimited (errF n m)) model =
      (.retryExhausted (some (errF 2 model)),
       { attempts := MAX_RETRIES, total_sleep := 3 * RATE_LIMIT_DELAY,
         provider_corrections := 0, final_model := model }) ∧
    (MAX_RETRIES - 1) * RATE_LIMIT_DELAY ≤ 3 * RATE_LIMIT_DELAY := by
  exact ⟨rfl, by decide⟩

/-- C2 counterexample: with a transport that raises the provider-missing
BadRequestError on every call, make_llm_api_call applies the prefix
correction three times - not at most once - and terminates after exactly
MAX_RETRIES = 3 transport calls, showing that each corrected retry consumed
one of the MAX_RETRIES attempt slots. -/
theorem c2_counterexample :
    (make_llm_api_call_retry cfgEmpty (fun _ _ => .badRequest provider_missing_msg)
      "gpt-test".data).2.provider_corrections = 3 ∧
    ¬ ((make_llm_api_call_retry cfgEmpty (fun _ _ => .badRequest provider_missing_msg)
      "gpt-test".data).2.provider_corrections ≤ 1) ∧
    (make_llm_api_call_retry cfgEmpty (fun _ _ => .badRequest provider_missing_msg)
      "gpt-test".data).1 = .retryExhausted none ∧
    (make_llm_api_call_retry cfgEmpty (fun _ _ => .badRequest provider_missing_msg)
      "gpt-test".data).2.attempts = 3 := by
  decide

/-- C2 amended: on each provider-missing structural error make_llm_api_call
prepends the provider prefix (ollama/ when an Ollama provider is configured,
openai/ otherwise) and retries immediately with no backoff sleep, but the
correction is applied on every such error - up to MAX_RETRIES times per
invocation - and each corrected retry consumes one of the MAX_RETRIES
attempt slots: with provider-missing on every attempt the loop ends after 3
attempts with 3 corrections, zero sleep, no recorded last error, and a
triple-prefixed model. -/
theorem c2_provider_missing_correction_repeats (cfg : LLMConfig) (e model : List Char)
    (h : containsSub e PROVIDER_NOT_PROVIDED = true) :
    make_llm_api_call_retry cfg (fun _ _ => .badRequest e) model =
      (.retryExhausted none,
       { attempts := MAX_RETRIES, total_sleep := 0, provider_corrections := MAX_RETRIES,
         final_model :=
           (if ollama_configured cfg then "ollama/".data else "openai/".data) ++
           ((if ollama_configured cfg then "ollama/".data else "openai/".data) ++
            ((if ollama_configured cfg then "ollama/".data else "openai/".data) ++ model)) }) := by
  simp [make_llm_api_call_retry, invoke_loop, MAX_RETRIES, h]

/-- C2 witness: the amended statement evaluated at a concrete transport,
configuration and model name. -/
theorem c2_witness :
    make_llm_api_call_retry cfgEmpty (fun _ _ => .badRequest provider_missing_msg)
      "qwen3:32b".data =
      (.retryExhausted none,
       { attempts := 3, total_sleep := 0, provider_corrections := 3,
         final_model := "openai/openai/openai/qwen3:32b".data }) := by
  rw [c2_provider_missing_correction_repeats cfgEmpty provider_missing_msg
    "qwen3:32b".data (by decide)]
  decide

/-- C9 amended: the record handed to the decision log carries a prompt
snippet of at most 53 characters, not 50: prompts of at most 50 characters
pass through whole, and longer prompts contribute exactly their first 50
characters followed by the three-character ellipsis, so the snippet length
is then exactly 53; beyond the snippet only the numeric prompt length enters
the record. -/
theorem c9_snippet_truncation (prompt task_type : List Char) (confidence : Flt)
    (selected_model : List Char) (override_reason : Option (List Char)) :
    (log_model_selection_record prompt task_type confidence selected_model
      override_reason).prompt_snippet.length ≤ 53 ∧
    (log_model_selection_record prompt task_type confidence selected_model
      override_reason).prompt_length = prompt.length ∧
    (prompt.length ≤ 50 →
      (log_model_selection_record prompt task_type confidence selected_model
        override_reason).prompt_snippet = prompt) ∧
    (50 < prompt.length →
      (log_model_selection_record prompt task_type confidence selected_model
        override_reason).prompt_snippet = prompt.take 50 ++ "...".data ∧
      (log_model_selection_record prompt task_type confidence selected_model
        override_reason).prompt_snippet.length = 53) := by
  refine ⟨?_, rfl, ?_, ?_⟩
  · simp only [log_model_selection_record, truncate_prompt]
    by_cases h : 50 < prompt.length
    · rw [if_pos h]
      simp [List.length_take]
    · rw [if_neg h]
      omega
  · intro hle
    simp only [log_model_selection_record, truncate_prompt]
    rw [if_neg (by omega)]
  · intro hgt
    simp only [log_model_selection_record, truncate_prompt]
    rw [if_pos hgt]
    refine ⟨rfl, ?_⟩
    simp [List.length_take]
    omega

/-- C9 witness: the amended statement evaluated at a concrete 51-character
prompt. -/
theorem c9_witness :
    (log_model_selection_record p51 "general".data (Flt.val (6/10)) "qwen3:32b".data
      none).prompt_snippet = List.replicate 50 'a' ++ "...".data ∧
    (log_model_selection_record p51 "general".data (Flt.val (6/10)) "qwen3:32b".data
      none).prompt_snippet.length = 53 := by
  have h := (c9_snippet_truncation p51 "general".data (Flt.val (6/10)) "qwen3:32b".data
    none).2.2.2 (by decide)
  exact ⟨h.1.trans (by decide), h.2⟩

/-- C9 counterexample: a 51-character prompt produces a snippet of length
53 (the first 50 characters plus the ellipsis), refuting the claimed
50-character bound on the snippet string. -/
theorem c9_counterexample :
    (log_model_selection_record p51 "general".data (Flt.val (6/10)) "qwen3:32b".data
      none).prompt_snippet.length = 53 ∧
    ¬ ((log_model_selection_record p51 "general".data (Flt.val (6/10)) "qwen3:32b".data
      none).prompt_snippet.length ≤ 50) := by
  decide

/-- C10: confirmed.  For task type "general" the adaptation pipeline applies
neither prompt augmentation nor temperature substitution:
enhance_prompt_for_task returns every message list unchanged because it only
recognizes coding, reasoning, creative and chat, and optimize_temperature
leaves a caller temperature of 0 at 0 because its defaults table has no
"general" entry. -/
theorem c10_general_task_is_noop (ms : List Msg) :
    enhance_prompt_for_task ms "general".data = .ok ms ∧
    optimize_temperature "general".data 0 = 0 := by
  constructor
  · rw [enhance_prompt_for_task, if_pos (Or.inr (by decide))]
  · decide

/-- C4: confirmed.  For every prompt and classification, the override chain
of get_model_for_task applies its rules in the fixed priority order, short
circuiting on the first match: coding keywords force the coding model with
reason coding_keywords_detected; otherwise a word count over 100 forces the
reasoning model with reason long_complex_prompt; otherwise reasoning terms
force the reasoning model with reason reasoning_terms_detected; otherwise
the base mapping applies with no override reason. -/
theorem c4_override_priority (prompt task_type : List Char) :
    ((task_type ≠ "coding".data ∧ anyTermIn coding_keywords (lowerChars prompt) = true) →
      get_model_for_task_from prompt task_type =
        (TASK_MODELS_get "coding".data, some "coding_keywords_detected".data)) ∧
    (¬ (task_type ≠ "coding".data ∧ anyTermIn coding_keywords (lowerChars prompt) = true) →
      (100 < pyWordCount prompt ∧ task_type ≠ "reasoning".data) →
      get_model_for_task_from prompt task_type =
        (TASK_MODELS_get "reasoning".data, some "long_complex_prompt".data)) ∧
    (¬ (task_type ≠ "coding".data ∧ anyTermIn coding_keywords (lowerChars prompt) = true) →
      ¬ (100 < pyWordCount prompt ∧ task_type ≠ "reasoning".data) →
      (task_type ≠ "reasoning".data ∧ anyTermIn reasoning_terms (lowerChars prompt) = true) →
      get_model_for_task_from prompt task_type =
        (TASK_MODELS_get "reasoning".data, some "reasoning_terms_detected".data)) ∧
    (¬ (task_type ≠ "coding".data ∧ anyTermIn coding_keywords (lowerChars prompt) = true) →
      ¬ (100 < pyWordCount prompt ∧ task_type ≠ "reasoning".data) →
      ¬ (task_type ≠ "reasoning".data ∧ anyTermIn reasoning_terms (lowerChars prompt) = true) →
      get_model_for_task_from prompt task_type = (TASK_MODELS_get task_type, none)) := by
  refine ⟨?_, ?_, ?_, ?_⟩
  · intro h1
    simp only [get_model_for_task_from]
    rw [if_pos h1]
  · intro h1 h2
    simp only [get_model_for_task_from]
    rw [if_neg h1, if_pos h2]
  · intro h1 h2 h3
    simp only [get_model_for_task_from]
    rw [if_neg h1, if_neg h2, if_pos h3]
  · intro h1 h2 h3
    simp only [get_model_for_task_from]
    rw [if_neg h1, if_neg h2, if_neg h3]

set_option maxRecDepth 8000 in
/-- C4 witness: the two instances named by the claim - a prompt containing
"debug this function" classified "general" yields the coding model with
reason coding_keywords_detected, and a 150-word keyword-free prompt
classified "creative" yields the reasoning model with reason
long_complex_prompt. -/
theorem c4_witness :
    get_model_for_task_from "debug this function".data "general".data =
      ("qwen2.5-coder:32b-instruct-q8_0".data, some "coding_keywords_detected".data) ∧
    get_model_for_task_from demo_long_prompt "creative".data =
      ("mixtral:8x22b-instruct-v0.1-q4_K_M".data, some "long_complex_prompt".data) := by
  constructor
  · exact ((c4_override_priority "debug this function".data "general".data).1
      (by decide)).trans (by decide)
  · exact ((c4_override_priority demo_long_prompt "creative".data).2.1
      (by decide) (by decide)).trans (by decide)

/-- C7 amended: for every NON-EMPTY message list whose first system message,
when present, carries string (or absent) content, and every known task type,
enhance_prompt_for_task appends the fixed task instruction to that system
message (the old content, a sentence separator, then the instruction, so the
old content is never replaced) and otherwise inserts a new system message at
position 0; all other messages keep their order and content under the
List.set semantics of the conclusion.  The non-emptiness restriction is
forced by c7_counterexample; a structured list content in the first system
message raises an AttributeError instead. -/
theorem c7_augmentation (ms : List Msg) (t : List Char)
    (h1 : t ∈ KNOWN_TASK_TYPES) (h2 : ms ≠ []) :
    (ms.findIdx? (fun m => m.role == "system".data) = none →
      enhance_prompt_for_task ms t =
        .ok ({ role := "system".data, content := some (.str (task_instructions t)) } :: ms)) ∧
    (∀ (i : Nat) (m : Msg) (s : List Char),
      ms.findIdx? (fun m => m.role == "system".data) = some i → ms[i]? = some m →
      m.content = some (.str s) →
      enhance_prompt_for_task ms t =
        .ok (ms.set i
          { m with content := some (.str (withSentenceSep s ++ task_instructions t)) })) ∧
    (∀ (i : Nat) (m : Msg),
      ms.findIdx? (fun m => m.role == "system".data) = some i → ms[i]? = some m →
      m.content = none →
      enhance_prompt_for_task ms t =
        .ok (ms.set i
          { m with content := some (.str (withSentenceSep [] ++ task_instructions t)) })) := by
  refine ⟨?_, ?_, ?_⟩
  · intro hf
    unfold enhance_prompt_for_task
    rw [if_neg (by simp [h1, h2])]
    simp only [hf]
  · intro i m s hf hm hc
    unfold enhance_prompt_for_task
    rw [if_neg (by simp [h1, h2])]
    simp only [hf, hm, hc]
  · intro i m hf hm hc
    unfold enhance_prompt_for_task
    rw [if_neg (by simp [h1, h2])]
    simp only [hf, hm, hc]

set_option maxRecDepth 8000 in
/-- C7 counterexample: for the empty message list - which contains no system
message - and the known task type "coding", enhance_prompt_for_task returns
the empty list unchanged instead of inserting a new system message at
position 0, because the falsy-messages guard returns early. -/
theorem c7_counterexample :
    enhance_prompt_for_task [] "coding".data = .ok [] ∧
    ([] : List Msg) ≠
      [{ role := "system".data, content := some (.str (task_instructions "coding".data)) }] := by
  decide

set_option maxRecDepth 8000 in
/-- C7 witness: the amended statement evaluated on a one-element user
message list, where a new system message is inserted at position 0. -/
theorem c7_witness :
    enhance_prompt_for_task msgsUserHi "coding".data =
      .ok ({ role := "system".data,
             content := some (.str (task_instructions "coding".data)) } :: msgsUserHi) :=
  (c7_augmentation msgsUserHi "coding".data (by decide) (by decide)).1 (by decide)

set_option maxRecDepth 8000 in
/-- C8: code-bug evidence.  enhance_prompt_for_task copies only the
reference list (messages.copy() is a shallow copy) and then assigns the
enhanced content through the shared reference, so the caller-owned system
message object itself is mutated in the heap - the coding instruction is
appended to its content - which is not the documented cache-hint wrapping;
the source even carries the comment "Create a copy to avoid modifying the
original".  The caller reference list [0, 1] is returned intact while the
object at address 0 has changed. -/
theorem c8_shallow_copy_mutates_caller :
    (enhance_prompt_for_task_heap c8_heap [0, 1] "coding".data).toOption.map
        (fun pr => pr.2) = some [0, 1] ∧
    (enhance_prompt_for_task_heap c8_heap [0, 1] "coding".data).toOption.map
        (fun pr => pr.1[0]?) =
      some (some
        { role := "system".data,
          content := some (.str (withSentenceSep "You are a helpful assistant.".data ++
            task_instructions "coding".data)) }) ∧
    (enhance_prompt_for_task_heap c8_heap [0, 1] "coding".data).toOption.map
        (fun pr => pr.1[0]?) ≠ some (c8_heap[0]?) := by
  decide

theorem step_token_limits_temperature (mn : List Char) (mt : Option Nat) (p : LLMParams) :
    (step_token_limits mn mt p).temperature = p.temperature := by
  rcases mt with _ | mt
  · rfl
  · simp only [step_token_limits]
    split_ifs <;> rfl

theorem step_tools_temperature (tools : List (List Char)) (tc : List Char) (p : LLMParams) :
    (step_tools tools tc p).temperature = p.temperature := by
  simp only [step_tools]
  split_ifs <;> rfl

theorem step_ollama_or_claude_temperature (cfg : LLMConfig) (mn : List Char) (p : LLMParams) :
    ((step_ollama_or_claude cfg mn p).1).temperature = p.temperature := by
  simp only [step_ollama_or_claude]
  split_ifs <;> rfl

theorem step_openrouter_temperature (cfg : LLMConfig) (mn : List Char) (p : LLMParams) :
    (step_openrouter cfg mn p).temperature = p.temperature := by
  simp only [step_openrouter]
  split_ifs <;> rfl

theorem step_bedrock_temperature (mn : List Char) (mid : Option (List Char)) (p : LLMParams) :
    (step_bedrock mn mid p).temperature = p.temperature := by
  simp only [step_bedrock]
  split_ifs <;> rfl

theorem step_cache_and_thinking_temperature (et : Option Bool)
    (re : Option (List Char)) (p : LLMParams) :
    (step_cache_and_thinking et re p).temperature =
      if is_anthropic_name p.model && et.getD false then 1 else p.temperature := by
  by_cases h1 : is_anthropic_name p.model = true <;>
    by_cases h2 : et.getD false = true <;>
      simp [step_cache_and_thinking, h1, h2]

theorem step_cache_and_thinking_model (et : Option Bool)
    (re : Option (List Char)) (p : LLMParams) :
    (step_cache_and_thinking et re p).model = p.model := by
  by_cases h1 : is_anthropic_name p.model = true <;>
    by_cases h2 : et.getD false = true <;>
      simp [step_cache_and_thinking, h1, h2]

theorem prepare_params_core_temperature (cfg : LLMConfig) (ms1 : List Msg)
    (mn1 : List Char) (t : ℚ) (mt : Option Nat) (rf : Option (List Char))
    (tools : List (List Char)) (tc : List Char) (ak ab : Option (List Char))
    (st : Bool) (tp : Option ℚ) (mid : Option (List Char)) (et : Option Bool)
    (re : Option (List Char)) (task : List Char) :
    (prepare_params_core cfg ms1 mn1 t mt rf tools tc ak ab st tp mid et re task).temperature =
      if is_anthropic_name
          (prepare_params_core cfg ms1 mn1 t mt rf tools tc ak ab st tp mid et re task).model &&
          et.getD false then 1
      else optimize_temperature task t := by
  simp only [prepare_params_core, step_cache_and_thinking_temperature,
    step_cache_and_thinking_model, step_bedrock_temperature, step_openrouter_temperature,
    step_ollama_or_claude_temperature, step_tools_temperature, step_token_limits_temperature]

/-- C5 amended: every request prepared by prepare_params carries the caller
temperature unchanged when non-zero, and the per-task default (via
optimize_temperature: coding 0.1, reasoning 0.2, creative 0.8, chat 0.5,
else 0) when the caller passed 0 - EXCEPT when the effective model name
contains "claude" or "anthropic" (case-insensitive) and enable_thinking is
set, in which case the temperature is forced to 1.0 regardless of the caller
value. -/
theorem c5_thinking_overrides_temperature (cfg : LLMConfig) (messages : List Msg)
    (model_name : List Char) (t : ℚ) (mt : Option Nat) (rf : Option (List Char))
    (tools : List (List Char)) (tc : List Char) (ak ab : Option (List Char))
    (st : Bool) (tp : Option ℚ) (mid : Option (List Char)) (et : Option Bool)
    (re : Option (List Char)) (task : List Char) (P : LLMParams)
    (h : prepare_params cfg messages model_name t mt rf tools tc ak ab st tp mid et re task =
      .ok P) :
    P.temperature =
      if is_anthropic_name P.model && et.getD false then 1
      else optimize_temperature task t := by
  unfold prepare_params at h
  rw [except_bind_ok] at h
  obtain ⟨mn1, hmn, h⟩ := h
  rw [except_bind_ok] at h
  obtain ⟨ms1, hms, h⟩ := h
  simp only [pure, Except.pure, Except.ok.injEq] at h
  subst h
  exact prepare_params_core_temperature cfg ms1 mn1 t mt rf tools tc ak ab st tp mid et re task

set_option maxRecDepth 8000 in
/-- C5 counterexample: with model "claude-3" and enable_thinking = true, a
caller temperature of 0.3 reaches the provider parameters as 1.0, refuting
the claim for that combination of model name and thinking flags. -/
theorem c5_counterexample :
    (prepare_params cfgEmpty msgsUserHi "claude-3".data (mkRat 3 10) none none [] "auto".data
      none none false none none (some true) (some "low".data) "chat".data).toOption.map
      LLMParams.temperature = some 1 ∧ (1 : ℚ) ≠ mkRat 3 10 := by
  constructor
  · decide
  · decide

set_option maxRecDepth 8000 in
/-- C5 witness: the amended statement evaluated at a non-Anthropic model
with thinking enabled and caller temperature 0.3, which passes through
unchanged. -/
theorem c5_witness : c5w_params.temperature = mkRat 3 10 := by
  have h : prepare_params cfgEmpty msgsUserHi "gpt-4o".data (mkRat 3 10) none none [] "auto".data
      none none false none none (some true) (some "low".data) "chat".data = .ok c5w_params := by
    decide
  rw [c5_thinking_overrides_temperature cfgEmpty msgsUserHi "gpt-4o".data (mkRat 3 10) none none []
    "auto".data none none false none none (some true) (some "low".data) "chat".data
    c5w_params h]
  decide

theorem msgPreserves_refl (m : Msg) : MsgPreserves m m := ⟨rfl, rfl, fun _ _ h _ => h⟩

theorem cachePreserves_refl (ms : List Msg) : CachePreserves ms ms :=
  ⟨rfl, fun _ m h => ⟨m, h, msgPreserves_refl m⟩⟩

theorem cachePreserves_trans {a b c : List Msg}
    (h1 : CachePreserves a b) (h2 : CachePreserves b c) : CachePreserves a c := by
  obtain ⟨l1, p1⟩ := h1
  obtain ⟨l2, p2⟩ := h2
  refine ⟨l2.trans l1, fun i m hm => ?_⟩
  obtain ⟨m1, hb, hp1⟩ := p1 i m hm
  obtain ⟨m2, hc, hp2⟩ := p2 i m1 hb
  exact ⟨m2, hc, hp2.1.trans hp1.1, hp2.2.1.trans hp1.2.1,
    fun j b hj hcc => hp2.2.2 j b (hp1.2.2 j b hj hcc) hcc⟩

theorem mark_first_text_item_texts (bs : List MBlock) :
    (mark_first_text_item bs).map MBlock.text = bs.map MBlock.text := by
  induction bs with
  | nil => rfl
  | cons b t ih =>
    by_cases h : (b.btype == "text".data && !b.cache_control) = true
    · simp [mark_first_text_item, h]
    · simp [mark_first_text_item, h, ih]

theorem mark_first_text_item_get (bs : List MBlock) (j : Nat) (b : MBlock)
    (hj : bs[j]? = some b) (hcc : b.cache_control = true) :
    (mark_first_text_item bs)[j]? = some b := by
  induction bs generalizing j with
  | nil => simp at hj
  | cons x t ih =>
    cases j with
    | zero =>
      simp only [List.getElem?_cons_zero, Option.some.injEq] at hj
      subst hj
      have hcond : (x.btype == "text".data && !x.cache_control) = false := by
        simp [hcc]
      simp [mark_first_text_item, hcond]
    | succ k =>
      simp only [List.getElem?_cons_succ] at hj
      by_cases h : (x.btype == "text".data && !x.cache_control) = true
      · simpa [mark_first_text_item, h] using hj
      · simpa [mark_first_text_item, h] using ih k hj

theorem mark_all_text_items_texts (bs : List MBlock) :
    (mark_all_text_items bs).map MBlock.text = bs.map MBlock.text := by
  simp only [mark_all_text_items, List.map_map]
  exact List.map_congr_left (fun b _ => by simp only [Function.comp_apply]; split <;> rfl)

theorem mark_all_text_items_get (bs : List MBlock) (j : Nat) (b : MBlock)
    (hj : bs[j]? = some b) (hcc : b.cache_control = true) :
    (mark_all_text_items bs)[j]? = some b := by
  simp only [mark_all_text_items, List.getElem?_map, hj, Option.map_some']
  have hcond : (b.btype == "text".data && !b.cache_control) = false := by simp [hcc]
  simp [hcond]

theorem apply_cache_control_msg_preserves (m : Msg) :
    MsgPreserves m (apply_cache_control_msg m) := by
  rcases m with ⟨role, content⟩
  rcases content with _ | c
  · exact msgPreserves_refl _
  · rcases c with s | bs
    · refine ⟨rfl, rfl, fun j b hj _ => ?_⟩
      simp [msg_block] at hj
    · refine ⟨rfl, ?_, fun j b hj hcc => ?_⟩
      · simpa [apply_cache_control_msg, msg_texts] using mark_all_text_items_texts bs
      · simp only [msg_block] at hj ⊢
        exact mark_all_text_items_get bs j b hj hcc

theorem wrap_system_cache_preserves (m : Msg) :
    MsgPreserves m (wrap_system_cache m) := by
  rcases m with ⟨role, content⟩
  rcases content with _ | c
  · exact msgPreserves_refl _
  · rcases c with s | bs
    · refine ⟨rfl, rfl, fun j b hj _ => ?_⟩
      simp [msg_block] at hj
    · refine ⟨rfl, ?_, fun j b hj hcc => ?_⟩
      · simpa [wrap_system_cache, msg_texts] using mark_first_text_item_texts bs
      · simp only [msg_block] at hj ⊢
        exact mark_first_text_item_get bs j b hj hcc

theorem length_modifyAt (f : Msg → Msg) (n : Nat) (ms : List Msg) :
    (modifyAt f n ms).length = ms.length := by
  induction ms generalizing n with
  | nil => cases n <;> rfl
  | cons x t ih =>
    cases n with
    | zero => rfl
    | succ k => simp [modifyAt, ih]

theorem modifyAt_getElem (f : Msg → Msg) (n : Nat) (ms : List Msg) (i : Nat) :
    (modifyAt f n ms)[i]? = if i = n then (ms[i]?).map f else ms[i]? := by
  induction ms generalizing n i with
  | nil => simp [modifyAt]
  | cons x t ih =>
    cases n with
    | zero =>
      cases i with
      | zero => simp [modifyAt]
      | succ k => simp [modifyAt]
    | succ nk =>
      cases i with
      | zero => simp [modifyAt]
      | succ k => simpa [modifyAt] using ih nk k

theorem cachePreserves_modifyAt (f : Msg → Msg) (hf : ∀ m, MsgPreserves m (f m))
    (n : Nat) (ms : List Msg) : CachePreserves ms (modifyAt f n ms) := by
  refine ⟨length_modifyAt f n ms, fun i m hm => ?_⟩
  rw [modifyAt_getElem]
  by_cases h : i = n
  · subst h
    rw [if_pos rfl, hm]
    exact ⟨f m, rfl, hf m⟩
  · rw [if_neg h]
    exact ⟨m, hm, msgPreserves_refl m⟩

theorem cachePreserves_applyCCAt (ms : List Msg) (oi : Option Nat) :
    CachePreserves ms (applyCCAt ms oi) := by
  cases oi with
  | none => exact cachePreserves_refl ms
  | some i => exact cachePreserves_modifyAt _ apply_cache_control_msg_preserves i ms

theorem cachePreserves_head_wrap (ms : List Msg) :
    CachePreserves ms
      (match ms with
       | [] => []
       | m :: rest => if m.role == "system".data then wrap_system_cache m :: rest
         else m :: rest) := by
  cases ms with
  | nil => exact cachePreserves_refl []
  | cons m rest =>
    by_cases h : (m.role == "system".data) = true
    · simp only [h, if_true]
      refine ⟨rfl, fun i mm hm => ?_⟩
      cases i with
      | zero =>
        simp only [List.getElem?_cons_zero, Option.some.injEq] at hm
        subst hm
        exact ⟨wrap_system_cache m, by simp, wrap_system_cache_preserves m⟩
      | succ k =>
        simp only [List.getElem?_cons_succ] at hm ⊢
        exact ⟨mm, hm, msgPreserves_refl mm⟩
    · simp only [h, if_false]
      exact cachePreserves_refl _

theorem apply_anthropic_cache_preserves (ms : List Msg) :
    CachePreserves ms (apply_anthropic_cache ms) := by
  unfold apply_anthropic_cache
  exact cachePreserves_trans
    (cachePreserves_trans
      (cachePreserves_trans (cachePreserves_head_wrap ms) (cachePreserves_applyCCAt _ _))
      (cachePreserves_applyCCAt _ _))
    (cachePreserves_applyCCAt _ _)

/-- C6: confirmed.  Running the Anthropic cache-marking pass a second time
on the already-adapted message list preserves its length, the role and the
ordered textual content of every message, and leaves every content block
that already carries a cache_control entry exactly as it was - under Python
dict semantics this is precisely the guarantee that no duplicate cache hint
is added to a block that already carries one.  Instance of
apply_anthropic_cache_preserves, which proves the same for any input. -/
theorem c6_cache_marking_second_pass (ms : List Msg) :
    CachePreserves (apply_anthropic_cache ms)
      (apply_anthropic_cache (apply_anthropic_cache ms)) :=
  apply_anthropic_cache_preserves (apply_anthropic_cache ms)
